import Mathlib

/-!
Verification of the `expo::JSIInteropModuleRegistry` bridge façade
(`src/packages/expo-modules-core/android/src/main/cpp/JSIInteropModuleRegistry.h`).

Only the C++ header is in the repository's files: it fixes every public
signature (in particular, `registerSharedObject` returns `void`, and the four
lookups `getModule`, `hasModule`, `getModulesName`, `getCoreModule` are `const`
member functions), while the behaviour of the member functions lives in the
missing implementation file `JSIInteropModuleRegistry.cpp`.  The behaviour is
therefore modelled from the specification: the façade is a state machine
`Uninitialized → Installed → Deallocated` with a module registry, a shared
object registry keyed by monotonically allocated integer ids, and an idempotent
teardown sequence guarded by the `wasDeallocated` flag.
-/

namespace Expo

/-- Error taxonomy of the spec (§7): `NotInitialized` for lifecycle misuse,
`ModuleNotFound` and `CoreModuleMissing` for module lookups,
`ScriptEvaluationError` carrying the engine diagnostic, and
`UnknownSharedObjectId` for state-attachment on an unregistered id. -/
inductive Err where
  | NotInitialized
  | ModuleNotFound
  | CoreModuleMissing
  | ScriptEvaluationError (diagnostic : String)
  | UnknownSharedObjectId
deriving DecidableEq

/-- Modelled from the spec: the `ScriptRuntimeHandle` owned by the façade
(`std::shared_ptr<JavaScriptRuntime> runtimeHolder` in the header); its
attributes per §3 are the engine instance and a flag for test-mode
initialization.  The host-supplied engine is identified by the `jlong`
runtime pointer passed to `installJSI`; the test install owns a private
engine and carries no host pointer. -/
structure RuntimeHandle where
  enginePointer : Option Int
  testMode : Bool
deriving DecidableEq

/-- Modelled from the spec: a `SharedObjectEntry` (§3) pairs a host-native
handle with a script-visible object; both are opaque to the registry and
modelled as numeric identities. -/
structure SharedEntry where
  native : Nat
  js : Nat
deriving DecidableEq

/-- Modelled from the spec: the façade's state.  Fields `jsInvoker`,
`runtimeHolder`, `jsRegistry`, `jniDeallocator` and `wasDeallocated` mirror the
members declared in the header (lines 115-120); the module registry, the
shared object registry with its id counter, the per-handle release log and the
deallocator notification count  are the bookkeeping the spec ascribes to the
missing implementation file.  `Uninitialized` is `runtimeHolder = none`;
`Installed` is `runtimeHolder = some _` with `wasDeallocated = false`. -/
structure State where
  wasDeallocated : Bool
  jsInvoker : Option Nat
  runtimeHolder : Option RuntimeHandle
  jsRegistry : Bool
  jniDeallocator : Nat
  deallocNotified : Nat
  modules : List (String × Nat)
  coreModule : Option Nat
  nextSharedId : Nat
  sharedObjects : List (Nat × SharedEntry)
  nativeStates : List (Nat × Nat)
  releases : List Nat
deriving DecidableEq

/-- Modelled from the spec: the state right after `initHybrid` constructs the
façade — `Uninitialized`, no engine attached, empty registries. -/
def initHybrid : State :=
  { wasDeallocated := false
    jsInvoker := none
    runtimeHolder := none
    jsRegistry := false
    jniDeallocator := 0
    deallocNotified := 0
    modules := []
    coreModule := none
    nextSharedId := 0
    sharedObjects := []
    nativeStates := []
    releases := [] }

/-- Modelled from the spec: the guard evaluated at the start of every public
operation (§3 global invariant): the deallocation flag must be false and the
façade must be `Installed` (a Script Runtime Handle is attached). -/
def guardOk (s : State) : Bool :=
  !s.wasDeallocated && s.runtimeHolder.isSome

/-- Modelled from the spec: `installJSI(jsRuntimePointer, jniDeallocator,
jsInvokerHolder)` (header lines 48-52) transitions `Uninitialized → Installed`:
it attaches the host engine as the Script Runtime Handle, retains the
deallocator and work-invoker, populates the Reference Cache, and stores the
module registry the host side enumerates during install (§4.1, §3
`ModuleEntry`).  The module list and the distinguished core module are
explicit parameters here because their population is performed by the external
module-declaration subsystem and handed over already constructed (§4.2). -/
def installJSI (s : State) (jsRuntimePointer : Int) (jniDeallocator : Nat)
    (jsInvokerHolder : Nat) (modules : List (String × Nat))
    (coreModule : Option Nat) : State :=
  if s.wasDeallocated then s
  else
    { s with
      runtimeHolder := some { enginePointer := some jsRuntimePointer, testMode := false }
      jsInvoker := some jsInvokerHolder
      jniDeallocator := jniDeallocator
      jsRegistry := true
      modules := modules
      coreModule := coreModule }

/-- Modelled from the spec: `installJSIForTests(jniDeallocator)` (header lines
57-59) constructs and owns a private script engine instance — no host engine
pointer and no host work-invoker are supplied — and must otherwise behave
identically to `installJSI` from the registry's point of view (§4.1). -/
def installJSIForTests (s : State) (jniDeallocator : Nat)
    (modules : List (String × Nat)) (coreModule : Option Nat) : State :=
  if s.wasDeallocated then s
  else
    { s with
      runtimeHolder := some { enginePointer := none, testMode := true }
      jniDeallocator := jniDeallocator
      jsRegistry := true
      modules := modules
      coreModule := coreModule }

/-- Modelled from the spec: `getModule(moduleName)` (header line 67, a `const`
member) — fails with `NotInitialized` when the lifecycle guard rejects the
call, with `ModuleNotFound` when no entry exists, and otherwise returns the
stored module object; a pure lookup, the state is returned unchanged. -/
def getModule (s : State) (moduleName : String) : Except Err Nat × State :=
  if guardOk s then
    match s.modules.lookup moduleName with
    | some m => (.ok m, s)
    | none => (.error .ModuleNotFound, s)
  else (.error .NotInitialized, s)

/-- Modelled from the spec: `hasModule(moduleName)` (header line 69, a `const`
member returning `bool`) — under the lifecycle guard it is a total existence
check on the module registry. -/
def hasModule (s : State) (moduleName : String) : Except Err Bool × State :=
  if guardOk s then (.ok (s.modules.lookup moduleName).isSome, s)
  else (.error .NotInitialized, s)

/-- Modelled from the spec: `getModulesName()` (header line 74, a `const`
member) — returns the finite list of all currently registered module names. -/
def getModulesName (s : State) : Except Err (List String) × State :=
  if guardOk s then (.ok (s.modules.map Prod.fst), s)
  else (.error .NotInitialized, s)

/-- Modelled from the spec: `getCoreModule()` (header line 94, a `const`
member) — fails with `CoreModuleMissing` if bootstrap has not completed. -/
def getCoreModule (s : State) : Except Err Nat × State :=
  if guardOk s then
    match s.coreModule with
    | some m => (.ok m, s)
    | none => (.error .CoreModuleMissing, s)
  else (.error .NotInitialized, s)

/-- Modelled from the spec: `evaluateScript(script)` (header line 79) executes
the source on the engine; the engine is an external collaborator, modelled as
a function from source text to either a value or a diagnostic.  A script-level
failure is surfaced as `ScriptEvaluationError` carrying the engine's
diagnostic and must not touch the registry state (§4.4, §7). -/
def evaluateScript (engine : String → Except String Nat) (s : State)
    (script : String) : Except Err Nat × State :=
  if guardOk s then
    match engine script with
    | .ok v => (.ok v, s)
    | .error diagnostic => (.error (.ScriptEvaluationError diagnostic), s)
  else (.error .NotInitialized, s)

/-- Modelled from the spec: `global()` (header line 84) returns the engine's
global object handle; total under the lifecycle guard. -/
def globalObject (s : State) : Except Err Nat × State :=
  if guardOk s then (.ok 0, s) else (.error .NotInitialized, s)

/-- Modelled from the spec: `createObject()` (header line 89) allocates a new
plain object inside the engine; the registry state is untouched. -/
def createObject (s : State) : Except Err Nat × State :=
  if guardOk s then (.ok 0, s) else (.error .NotInitialized, s)

/-- Modelled from the spec: `drainJSEventLoop()` (header line 113) runs the
engine's pending work to quiescence; the registry state is untouched. -/
def drainJSEventLoop (s : State) : Except Err Unit × State :=
  if guardOk s then (.ok (), s) else (.error .NotInitialized, s)

/-- Modelled from the spec: `registerSharedObject(native, js)` (header lines
101-104) — the header declares the return type `void`, so no id is returned to
the caller; per §4.3 the registry allocates a fresh id from the monotone
counter, stores the pair under it, and the reclamation hook it attaches to the
script object carries that id back on collection. -/
def registerSharedObject (s : State) (native : Nat) (js : Nat) :
    Except Err Unit × State :=
  if guardOk s then
    (.ok (),
      { s with
        sharedObjects := s.sharedObjects ++ [(s.nextSharedId, ⟨native, js⟩)]
        nextSharedId := s.nextSharedId + 1 })
  else (.error .NotInitialized, s)

/-- Lookup of a shared object entry by id in the Shared Object Registry. -/
def lookupSharedObject (s : State) (objectId : Nat) : Option SharedEntry :=
  s.sharedObjects.lookup objectId

/-- Modelled from the spec: `deleteSharedObject(objectId)` (header lines
106-108) — a no-op when the id is unknown (§4.3: idempotent by design, the
host and the collector may race to delete the same id); otherwise it releases
the native handle's resources exactly once (recorded in the release log),
and removes the id's mapping and any attached native state. -/
def deleteSharedObject (s : State) (objectId : Nat) : Except Err Unit × State :=
  if guardOk s then
    match s.sharedObjects.lookup objectId with
    | none => (.ok (), s)
    | some e =>
      (.ok (),
        { s with
          sharedObjects := s.sharedObjects.filter (fun p => p.1 != objectId)
          nativeStates := s.nativeStates.filter (fun p => p.1 != objectId)
          releases := s.releases ++ [e.native] })
  else (.error .NotInitialized, s)

/-- Modelled from the spec: `jniSetNativeStateForSharedObject(id, jsObject)`
(header line 148) — fails with `UnknownSharedObjectId` when `id` is not
currently registered (never registered, or already deleted — ids are never
reused); otherwise it records the association of the additional host-side
native state with the id's script object. -/
def jniSetNativeStateForSharedObject (s : State) (objectId : Nat)
    (jsObject : Nat) : Except Err Unit × State :=
  if guardOk s then
    match s.sharedObjects.lookup objectId with
    | none => (.error .UnknownSharedObjectId, s)
    | some _ =>
      (.ok (),
        { s with
          nativeStates :=
            (objectId, jsObject) :: s.nativeStates.filter (fun p => p.1 != objectId) })
  else (.error .NotInitialized, s)

/-- The observable steps of the teardown sequence (§4.1): mark the
`wasDeallocated` flag, notify the `JNIDeallocator`, destroy the Script
Runtime Handle. -/
inductive TeardownEvent where
  | markFlag
  | notifyDeallocator
  | destroyRuntime
deriving DecidableEq

/-- Modelled from the spec: the teardown performed by
`~JSIInteropModuleRegistry` / `jniWasDeallocated` (header lines 127 and 144) —
if the façade was already deallocated the request is absorbed as a no-op;
otherwise it (a) marks the deallocated flag, (b) notifies the JNIDeallocator
to release host-side wrappers, and (c) releases the Script Runtime Handle
last.  The returned event list records the steps in the order they are
performed. -/
def deallocateRegistry (s : State) : List TeardownEvent × State :=
  if s.wasDeallocated then ([], s)
  else
    ([.markFlag, .notifyDeallocator, .destroyRuntime],
      { s with
        wasDeallocated := true
        deallocNotified := s.deallocNotified + 1
        runtimeHolder := none })

/-- A registry operation, for comparing the two installation variants over
whole operation sequences (§4.1: `installJSIForTests` must behave identically
from the registry's point of view). -/
inductive RegOp where
  | getModule (moduleName : String)
  | hasModule (moduleName : String)
  | getModulesName
  | getCoreModule
  | registerSharedObject (native : Nat) (js : Nat)
  | deleteSharedObject (objectId : Nat)
deriving DecidableEq

/-- The observable outcome of one registry operation. -/
inductive OpResult where
  | module (r : Except Err Nat)
  | bool (r : Except Err Bool)
  | names (r : Except Err (List String))
  | unit (r : Except Err Unit)

/-- Run one registry operation on the façade state. -/
def runOp (s : State) : RegOp → OpResult × State
  | .getModule n => ((getModule s n).1 |> .module, (getModule s n).2)
  | .hasModule n => ((hasModule s n).1 |> .bool, (hasModule s n).2)
  | .getModulesName => ((getModulesName s).1 |> .names, (getModulesName s).2)
  | .getCoreModule => ((getCoreModule s).1 |> .module, (getCoreModule s).2)
  | .registerSharedObject native js =>
      ((registerSharedObject s native js).1 |> .unit, (registerSharedObject s native js).2)
  | .deleteSharedObject i =>
      ((deleteSharedObject s i).1 |> .unit, (deleteSharedObject s i).2)

/-- Run a sequence of registry operations, collecting every outcome. -/
def runOps (s : State) : List RegOp → List OpResult × State
  | [] => ([], s)
  | o :: rest =>
    ((runOp s o).1 :: (runOps (runOp s o).2 rest).1, (runOps (runOp s o).2 rest).2)

/-- The registry-observable part of the façade state: everything a `RegOp`
can read or write, with the Script Runtime Handle abstracted to whether one
is attached. -/
@[reducible]
def obsEq (s t : State) : Prop :=
  s.wasDeallocated = t.wasDeallocated ∧
  s.runtimeHolder.isSome = t.runtimeHolder.isSome ∧
  s.modules = t.modules ∧
  s.coreModule = t.coreModule ∧
  s.nextSharedId = t.nextSharedId ∧
  s.sharedObjects = t.sharedObjects ∧
  s.nativeStates = t.nativeStates ∧
  s.releases = t.releases

/-- A freshly test-installed façade with one registered module ("core") and an
empty shared object registry, used as the concrete state of witnesses. -/
def sFresh : State := installJSIForTests initHybrid 5 [("core", 1)] (some 1)

/-- `sFresh` after registering one shared object: entry id 0 holds the pair
(native handle 7, script object 70). -/
def sTest : State := (registerSharedObject sFresh 7 70).2

/-! ### Helper lemmas -/

/-- Filtering out every entry keyed `i` makes a lookup of `i` miss. -/
theorem lookup_filter_ne {β : Type} (l : List (Nat × β)) (i : Nat) :
    (l.filter fun p => p.1 != i).lookup i = none := by
  induction l with
  | nil => rfl
  | cons p tl ih =>
    obtain ⟨k, v⟩ := p
    by_cases hp : k = i
    · simp [hp, ih]
    · have hik : (i == k) = false := beq_eq_false_iff_ne.mpr (Ne.symm hp)
      simp [List.lookup, hp, hik, ih]

/-- `getModule` returns the state unchanged (it is a `const` member). -/
theorem getModule_snd (s : State) (n : String) : (getModule s n).2 = s := by
  simp only [getModule]
  split
  · split <;> rfl
  · rfl

/-- `hasModule` returns the state unchanged (it is a `const` member). -/
theorem hasModule_snd (s : State) (n : String) : (hasModule s n).2 = s := by
  simp only [hasModule]
  split <;> rfl

/-- `getModulesName` returns the state unchanged (it is a `const` member). -/
theorem getModulesName_snd (s : State) : (getModulesName s).2 = s := by
  simp only [getModulesName]
  split <;> rfl

/-- `getCoreModule` returns the state unchanged (it is a `const` member). -/
theorem getCoreModule_snd (s : State) : (getCoreModule s).2 = s := by
  simp only [getCoreModule]
  split
  · split <;> rfl
  · rfl

/-! ### Claim theorems -/

/-- C4: for every name with no registered module entry, `hasModule` returns
false and `getModule` fails with `ModuleNotFound`; both are pure lookups that
leave the registry state unchanged. -/
theorem unregistered_name_has_no_module (s : State) (n : String)
    (hg : guardOk s = true) (hn : s.modules.lookup n = none) :
    hasModule s n = (.ok false, s) ∧
    getModule s n = (.error .ModuleNotFound, s) := by
  constructor
  · simp [hasModule, hg, hn]
  · simp [getModule, hg, hn]

/-- Witness for C4 at the concrete installed state `sFresh` and the
unregistered name "missing". -/
theorem unregistered_name_has_no_module_witness :
    guardOk sFresh = true ∧ sFresh.modules.lookup "missing" = none ∧
    (hasModule sFresh "missing" = (.ok false, sFresh) ∧
      getModule sFresh "missing" = (.error .ModuleNotFound, sFresh)) :=
  ⟨by decide, by decide,
    unregistered_name_has_no_module sFresh "missing" (by decide) (by decide)⟩

/-- C5: `getModulesName` returns the finite list of exactly the names for
which `hasModule` holds in the same state; the list is a pure function of the
state, hence stable within a call. -/
theorem modules_name_lists_exactly_registered (s : State) (hg : guardOk s = true) :
    (getModulesName s).1 = .ok (s.modules.map Prod.fst) ∧
    ∀ n, n ∈ s.modules.map Prod.fst ↔ (hasModule s n).1 = .ok true := by
  constructor
  · simp [getModulesName, hg]
  · intro n
    simp [hasModule, hg]

/-- Witness for C5 at the concrete installed state `sFresh`, instantiating the
membership equivalence at the registered name "core". -/
theorem modules_name_lists_exactly_registered_witness :
    guardOk sFresh = true ∧
    ("core" ∈ sFresh.modules.map Prod.fst ↔ (hasModule sFresh "core").1 = .ok true) :=
  ⟨by decide, (modules_name_lists_exactly_registered sFresh (by decide)).2 "core"⟩

/-- C7: the lifecycle guard — when the façade is `Uninitialized` (no Script
Runtime Handle attached) or teardown has begun (`wasDeallocated` is true),
every public operation other than install fails with `NotInitialized` and
performs no lookup and no state change. -/
theorem guard_rejects_every_public_op (s : State) (n : String)
    (native js i jsObject : Nat) (script : String)
    (engine : String → Except String Nat)
    (h : s.runtimeHolder.isSome = false ∨ s.wasDeallocated = true) :
    getModule s n = (.error .NotInitialized, s) ∧
    hasModule s n = (.error .NotInitialized, s) ∧
    getModulesName s = (.error .NotInitialized, s) ∧
    getCoreModule s = (.error .NotInitialized, s) ∧
    evaluateScript engine s script = (.error .NotInitialized, s) ∧
    globalObject s = (.error .NotInitialized, s) ∧
    createObject s = (.error .NotInitialized, s) ∧
    drainJSEventLoop s = (.error .NotInitialized, s) ∧
    registerSharedObject s native js = (.error .NotInitialized, s) ∧
    deleteSharedObject s i = (.error .NotInitialized, s) ∧
    jniSetNativeStateForSharedObject s i jsObject = (.error .NotInitialized, s) := by
  have hg : guardOk s = false := by
    rcases h with h | h <;> simp [guardOk, h]
  refine ⟨?_, ?_, ?_, ?_, ?_, ?_, ?_, ?_, ?_, ?_, ?_⟩ <;>
    simp [getModule, hasModule, getModulesName, getCoreModule, evaluateScript,
      globalObject, createObject, drainJSEventLoop, registerSharedObject,
      deleteSharedObject, jniSetNativeStateForSharedObject, hg]

/-- Witness for C7 at the just-constructed state `initHybrid`: `getModule`
before install fails with `NotInitialized`. -/
theorem guard_rejects_every_public_op_witness :
    (initHybrid.runtimeHolder.isSome = false ∨ initHybrid.wasDeallocated = true) ∧
    getModule initHybrid "core" = (.error .NotInitialized, initHybrid) :=
  ⟨Or.inl (by decide),
    (guard_rejects_every_public_op initHybrid "core" 0 0 0 0 "1+1"
      (fun _ => .ok 2) (Or.inl (by decide))).1⟩

/-- C8: a failing `evaluateScript` surfaces `ScriptEvaluationError` with the
engine's diagnostic and leaves the whole façade state — in particular the
module registry and the shared object registry — unchanged. -/
theorem evaluate_script_failure_is_frame (engine : String → Except String Nat)
    (s : State) (script diagnostic : String) (hg : guardOk s = true)
    (he : engine script = .error diagnostic) :
    evaluateScript engine s script = (.error (.ScriptEvaluationError diagnostic), s) ∧
    (evaluateScript engine s script).2.modules = s.modules ∧
    (evaluateScript engine s script).2.sharedObjects = s.sharedObjects := by
  have h1 : evaluateScript engine s script =
      (.error (.ScriptEvaluationError diagnostic), s) := by
    simp [evaluateScript, hg, he]
  exact ⟨h1, by rw [h1], by rw [h1]⟩

/-- Witness for C8: a concrete engine that rejects the source "syntax(((" with
a diagnostic, run on the concrete installed state `sFresh`. -/
theorem evaluate_script_failure_is_frame_witness :
    guardOk sFresh = true ∧
    evaluateScript (fun _ => .error "unexpected token") sFresh "syntax(((" =
      (.error (.ScriptEvaluationError "unexpected token"), sFresh) :=
  ⟨by decide,
    (evaluate_script_failure_is_frame (fun _ => .error "unexpected token")
      sFresh "syntax(((" "unexpected token" (by decide) rfl).1⟩

/-- C10: the four read-only lookups are `const` member functions of the
header; none of them changes any field of the façade state (`jsInvoker`,
`runtimeHolder`, `jsRegistry`, `jniDeallocator`, `wasDeallocated` and all
registry fields included). -/
theorem const_lookups_preserve_state (s : State) (n : String) :
    (getModule s n).2 = s ∧ (hasModule s n).2 = s ∧
    (getModulesName s).2 = s ∧ (getCoreModule s).2 = s :=
  ⟨getModule_snd s n, hasModule_snd s n, getModulesName_snd s, getCoreModule_snd s⟩

/-- C1 counterexample: the header declares `void registerSharedObject(...)`,
so the call returns nothing the caller could read an id from — at the concrete
installed state `sFresh`, the first registration and the second registration
return the very same value, refuting the claim that the two successive calls
return the distinct ids 0 and 1. -/
theorem register_shared_object_returns_nothing :
    (registerSharedObject sFresh 10 20).1 =
      (registerSharedObject (registerSharedObject sFresh 10 20).2 11 21).1 := rfl

/-- C1 amended: `registerSharedObject` allocates a fresh id internally (not
returned to the caller — the function returns void): starting from a fresh
install, the first registration stores its pair under id 0 and the second
under id 1, an immediate lookup of each id yields the registered
nativeHandle/scriptObject pair, and the first pair is still intact after the
second registration. -/
theorem register_shared_object_allocates_fresh_ids (s : State)
    (h1 o1 h2 o2 : Nat) (hg : guardOk s = true) (hid : s.nextSharedId = 0)
    (hso : s.sharedObjects = []) :
    (registerSharedObject s h1 o1).1 = .ok () ∧
    (registerSharedObject s h1 o1).2.nextSharedId = 1 ∧
    lookupSharedObject (registerSharedObject s h1 o1).2 0 = some ⟨h1, o1⟩ ∧
    (registerSharedObject (registerSharedObject s h1 o1).2 h2 o2).1 = .ok () ∧
    (registerSharedObject (registerSharedObject s h1 o1).2 h2 o2).2.nextSharedId = 2 ∧
    lookupSharedObject (registerSharedObject (registerSharedObject s h1 o1).2 h2 o2).2 0 =
      some ⟨h1, o1⟩ ∧
    lookupSharedObject (registerSharedObject (registerSharedObject s h1 o1).2 h2 o2).2 1 =
      some ⟨h2, o2⟩ := by
  have hg' : (!s.wasDeallocated && s.runtimeHolder.isSome) = true := hg
  refine ⟨?_, ?_, ?_, ?_, ?_, ?_, ?_⟩ <;>
    simp [registerSharedObject, lookupSharedObject, guardOk, hg', hid, hso,
      List.lookup]

/-- Witness for the amended C1 at the concrete fresh install `sFresh`. -/
theorem register_shared_object_allocates_fresh_ids_witness :
    guardOk sFresh = true ∧ sFresh.nextSharedId = 0 ∧ sFresh.sharedObjects = [] ∧
    lookupSharedObject (registerSharedObject sFresh 10 20).2 0 = some ⟨10, 20⟩ :=
  ⟨by decide, by decide, by decide,
    (register_shared_object_allocates_fresh_ids sFresh 10 20 11 21
      (by decide) (by decide) (by decide)).2.2.1⟩

/-- C2: `deleteSharedObject` is an idempotent release-if-present — an unknown
id (never registered or already deleted) is a silent no-op; a registered id is
removed from the mapping and its native handle's teardown runs exactly once
(one new entry in the release log), so a second delete of the same id is a
no-op and never double-frees the handle. -/
theorem delete_shared_object_idempotent (s : State) (i : Nat) (e : SharedEntry)
    (hg : guardOk s = true) :
    (s.sharedObjects.lookup i = none → deleteSharedObject s i = (.ok (), s)) ∧
    (s.sharedObjects.lookup i = some e →
      (deleteSharedObject s i).1 = .ok () ∧
      lookupSharedObject (deleteSharedObject s i).2 i = none ∧
      (deleteSharedObject s i).2.releases = s.releases ++ [e.native] ∧
      deleteSharedObject (deleteSharedObject s i).2 i =
        (.ok (), (deleteSharedObject s i).2)) := by
  have hg' : (!s.wasDeallocated && s.runtimeHolder.isSome) = true := hg
  constructor
  · intro h
    simp [deleteSharedObject, guardOk, hg', h]
  · intro h
    have hd : deleteSharedObject s i =
        (.ok (),
          { s with
            sharedObjects := s.sharedObjects.filter (fun p => p.1 != i)
            nativeStates := s.nativeStates.filter (fun p => p.1 != i)
            releases := s.releases ++ [e.native] }) := by
      simp [deleteSharedObject, guardOk, hg', h]
    refine ⟨by rw [hd], ?_, by rw [hd], ?_⟩
    · rw [hd]
      exact lookup_filter_ne s.sharedObjects i
    · rw [hd]
      simp [deleteSharedObject, guardOk, hg', lookup_filter_ne]

/-- Witness for C2 at the concrete state `sTest`, whose shared object registry
holds the single entry id 0 ↦ (native 7, script 70). -/
theorem delete_shared_object_idempotent_witness :
    guardOk sTest = true ∧ sTest.sharedObjects.lookup 0 = some ⟨7, 70⟩ ∧
    ((deleteSharedObject sTest 0).1 = .ok () ∧
      lookupSharedObject (deleteSharedObject sTest 0).2 0 = none ∧
      (deleteSharedObject sTest 0).2.releases = sTest.releases ++ [7] ∧
      deleteSharedObject (deleteSharedObject sTest 0).2 0 =
        (.ok (), (deleteSharedObject sTest 0).2)) :=
  ⟨by decide, by decide,
    (delete_shared_object_idempotent sTest 0 ⟨7, 70⟩ (by decide)).2 (by decide)⟩

/-- C3: `jniSetNativeStateForSharedObject` fails with `UnknownSharedObjectId`
exactly when the id is not currently registered (ids are never reused, so
that is: never registered or already deleted); on a registered id it succeeds,
records the association for that id, and leaves the id's entry registered. -/
theorem set_native_state_unknown_id_iff (s : State) (i jsObject : Nat)
    (e : SharedEntry) (hg : guardOk s = true) :
    ((jniSetNativeStateForSharedObject s i jsObject).1 =
        .error .UnknownSharedObjectId ↔ s.sharedObjects.lookup i = none) ∧
    (s.sharedObjects.lookup i = some e →
      (jniSetNativeStateForSharedObject s i jsObject).1 = .ok () ∧
      (jniSetNativeStateForSharedObject s i jsObject).2.nativeStates.lookup i =
        some jsObject ∧
      lookupSharedObject (jniSetNativeStateForSharedObject s i jsObject).2 i =
        some e) := by
  have hg' : (!s.wasDeallocated && s.runtimeHolder.isSome) = true := hg
  constructor
  · cases hm : s.sharedObjects.lookup i <;>
      simp [jniSetNativeStateForSharedObject, guardOk, hg', hm]
  · intro h
    refine ⟨?_, ?_, ?_⟩ <;>
      simp [jniSetNativeStateForSharedObject, lookupSharedObject, guardOk,
        hg', h, List.lookup]

/-- Witness for C3 at the concrete state `sTest`: attaching state to the
registered id 0 succeeds; the equivalence also certifies that id 1 (never
registered) is rejected with `UnknownSharedObjectId`. -/
theorem set_native_state_unknown_id_iff_witness :
    guardOk sTest = true ∧ sTest.sharedObjects.lookup 0 = some ⟨7, 70⟩ ∧
    ((jniSetNativeStateForSharedObject sTest 0 99).1 = .ok () ∧
      (jniSetNativeStateForSharedObject sTest 0 99).2.nativeStates.lookup 0 =
        some 99 ∧
      lookupSharedObject (jniSetNativeStateForSharedObject sTest 0 99).2 0 =
        some ⟨7, 70⟩) :=
  ⟨by decide, by decide,
    (set_native_state_unknown_id_iff sTest 0 99 ⟨7, 70⟩ (by decide)).2 (by decide)⟩

/-- C6: teardown marks the `wasDeallocated` flag, then notifies the
`JNIDeallocator`, and destroys the Script Runtime Handle last — the event
trace lists the steps in execution order; a second (and any further)
deallocation request is a no-op, so the deallocator is notified exactly once
no matter how many times deallocation is requested. -/
theorem teardown_ordered_and_idempotent (s : State)
    (h : s.wasDeallocated = false) :
    (deallocateRegistry s).1 =
      [TeardownEvent.markFlag, TeardownEvent.notifyDeallocator,
        TeardownEvent.destroyRuntime] ∧
    (deallocateRegistry s).2.wasDeallocated = true ∧
    (deallocateRegistry s).2.runtimeHolder = none ∧
    (deallocateRegistry s).2.deallocNotified = s.deallocNotified + 1 ∧
    deallocateRegistry (deallocateRegistry s).2 = ([], (deallocateRegistry s).2) ∧
    ∀ n : Nat,
      ((fun t => (deallocateRegistry t).2)^[n] (deallocateRegistry s).2).deallocNotified =
        s.deallocNotified + 1 := by
  have hd : deallocateRegistry s =
      ([TeardownEvent.markFlag, TeardownEvent.notifyDeallocator,
          TeardownEvent.destroyRuntime],
        { s with
          wasDeallocated := true
          deallocNotified := s.deallocNotified + 1
          runtimeHolder := none }) := by
    simp [deallocateRegistry, h]
  have hfix : (fun t => (deallocateRegistry t).2) (deallocateRegistry s).2 =
      (deallocateRegistry s).2 := by
    rw [hd]
    simp [deallocateRegistry]
  refine ⟨by rw [hd], by rw [hd], by rw [hd], by rw [hd], ?_, ?_⟩
  · have h2 : deallocateRegistry (deallocateRegistry s).2 =
        ([], (deallocateRegistry s).2) := by
      rw [hd]
      simp [deallocateRegistry]
    exact h2
  · intro n
    rw [Function.iterate_fixed hfix n, hd]

/-- The result of `getModule` as a function of the guard and the module
registry alone. -/
theorem getModule_fst (s : State) (n : String) :
    (getModule s n).1 =
      if guardOk s then
        (match s.modules.lookup n with
          | some m => .ok m
          | none => .error .ModuleNotFound)
      else .error .NotInitialized := by
  simp only [getModule]
  split
  · split <;> rfl
  · rfl

/-- The result of `hasModule` as a function of the guard and the module
registry alone. -/
theorem hasModule_fst (s : State) (n : String) :
    (hasModule s n).1 =
      if guardOk s then .ok (s.modules.lookup n).isSome
      else .error .NotInitialized := by
  simp only [hasModule]
  split <;> rfl

/-- The result of `getModulesName` as a function of the guard and the module
registry alone. -/
theorem getModulesName_fst (s : State) :
    (getModulesName s).1 =
      if guardOk s then .ok (s.modules.map Prod.fst)
      else .error .NotInitialized := by
  simp only [getModulesName]
  split <;> rfl

/-- The result of `getCoreModule` as a function of the guard and the core
module entry alone. -/
theorem getCoreModule_fst (s : State) :
    (getCoreModule s).1 =
      if guardOk s then
        (match s.coreModule with
          | some m => .ok m
          | none => .error .CoreModuleMissing)
      else .error .NotInitialized := by
  simp only [getCoreModule]
  split
  · split <;> rfl
  · rfl

/-- The result of `registerSharedObject` depends only on the guard. -/
theorem registerSharedObject_fst (s : State) (a b : Nat) :
    (registerSharedObject s a b).1 =
      if guardOk s then .ok () else .error .NotInitialized := by
  simp only [registerSharedObject]
  split <;> rfl

/-- The state after `registerSharedObject`. -/
theorem registerSharedObject_snd (s : State) (a b : Nat) :
    (registerSharedObject s a b).2 =
      if guardOk s then
        { s with
          sharedObjects := s.sharedObjects ++ [(s.nextSharedId, ⟨a, b⟩)]
          nextSharedId := s.nextSharedId + 1 }
      else s := by
  simp only [registerSharedObject]
  split <;> rfl

/-- The result of `deleteSharedObject` depends only on the guard. -/
theorem deleteSharedObject_fst (s : State) (i : Nat) :
    (deleteSharedObject s i).1 =
      if guardOk s then .ok () else .error .NotInitialized := by
  simp only [deleteSharedObject]
  split
  · split <;> rfl
  · rfl

/-- The state after `deleteSharedObject`. -/
theorem deleteSharedObject_snd (s : State) (i : Nat) :
    (deleteSharedObject s i).2 =
      if guardOk s then
        (match s.sharedObjects.lookup i with
          | none => s
          | some e =>
            { s with
              sharedObjects := s.sharedObjects.filter (fun p => p.1 != i)
              nativeStates := s.nativeStates.filter (fun p => p.1 != i)
              releases := s.releases ++ [e.native] })
      else s := by
  simp only [deleteSharedObject]
  split
  · split <;> rfl
  · rfl

/-- Two states that agree on the registry-observable part produce the same
outcome for any single registry operation, and stay observably equal. -/
theorem runOp_obsEq {s t : State} (h : obsEq s t) (o : RegOp) :
    (runOp s o).1 = (runOp t o).1 ∧ obsEq (runOp s o).2 (runOp t o).2 := by
  obtain ⟨h1, h2, h3, h4, h5, h6, h7, h8⟩ := h
  have hg : guardOk s = guardOk t := by simp [guardOk, h1, h2]
  cases o with
  | getModule n =>
    refine ⟨?_, ?_⟩
    · simp only [runOp]
      rw [getModule_fst, getModule_fst, hg, h3]
    · simp only [runOp]
      rw [getModule_snd, getModule_snd]
      exact ⟨h1, h2, h3, h4, h5, h6, h7, h8⟩
  | hasModule n =>
    refine ⟨?_, ?_⟩
    · simp only [runOp]
      rw [hasModule_fst, hasModule_fst, hg, h3]
    · simp only [runOp]
      rw [hasModule_snd, hasModule_snd]
      exact ⟨h1, h2, h3, h4, h5, h6, h7, h8⟩
  | getModulesName =>
    refine ⟨?_, ?_⟩
    · simp only [runOp]
      rw [getModulesName_fst, getModulesName_fst, hg, h3]
    · simp only [runOp]
      rw [getModulesName_snd, getModulesName_snd]
      exact ⟨h1, h2, h3, h4, h5, h6, h7, h8⟩
  | getCoreModule =>
    refine ⟨?_, ?_⟩
    · simp only [runOp]
      rw [getCoreModule_fst, getCoreModule_fst, hg, h4]
    · simp only [runOp]
      rw [getCoreModule_snd, getCoreModule_snd]
      exact ⟨h1, h2, h3, h4, h5, h6, h7, h8⟩
  | registerSharedObject a b =>
    refine ⟨?_, ?_⟩
    · simp only [runOp]
      rw [registerSharedObject_fst, registerSharedObject_fst, hg]
    · simp only [runOp]
      rw [registerSharedObject_snd, registerSharedObject_snd, hg]
      cases hgt : guardOk t with
      | false =>
        simp only [hgt, Bool.false_eq_true, if_false]
        exact ⟨h1, h2, h3, h4, h5, h6, h7, h8⟩
      | true =>
        simp only [hgt, if_true]
        exact ⟨h1, h2, h3, h4, by rw [h5], by rw [h5, h6], h7, h8⟩
  | deleteSharedObject i =>
    refine ⟨?_, ?_⟩
    · simp only [runOp]
      rw [deleteSharedObject_fst, deleteSharedObject_fst, hg]
    · simp only [runOp]
      rw [deleteSharedObject_snd, deleteSharedObject_snd, hg, h6, h7, h8]
      cases hgt : guardOk t with
      | false =>
        simp only [hgt, Bool.false_eq_true, if_false]
        exact ⟨h1, h2, h3, h4, h5, h6, h7, h8⟩
      | true =>
        simp only [hgt, if_true]
        cases hm : t.sharedObjects.lookup i with
        | none =>
          simp only [hm]
          exact ⟨h1, h2, h3, h4, h5, h6, h7, h8⟩
        | some e =>
          simp only [hm]
          exact ⟨h1, h2, h3, h4, h5, rfl, rfl, rfl⟩

/-- Two observably equal states produce the same outcome list for any
sequence of registry operations. -/
theorem runOps_obsEq {s t : State} (h : obsEq s t) (ops : List RegOp) :
    (runOps s ops).1 = (runOps t ops).1 := by
  induction ops generalizing s t with
  | nil => rfl
  | cons o rest ih =>
    obtain ⟨hr, ho⟩ := runOp_obsEq h o
    simp only [runOps]
    rw [hr, ih ho]

/-- C9: after `installJSIForTests(deallocator)`, every sequence of registry
operations (`getModule`, `hasModule`, `getModulesName`, `getCoreModule`,
`registerSharedObject`, `deleteSharedObject`) yields exactly the same
observable outcomes as after `installJSI(enginePointer, deallocator,
workInvoker)` — the test install differs only in owning a private engine. -/
theorem install_for_tests_behaves_identically (jsRuntimePointer : Int)
    (jniDeallocator jsInvokerHolder : Nat) (modules : List (String × Nat))
    (coreModule : Option Nat) (ops : List RegOp) :
    (runOps (installJSI initHybrid jsRuntimePointer jniDeallocator
        jsInvokerHolder modules coreModule) ops).1 =
    (runOps (installJSIForTests initHybrid jniDeallocator modules
        coreModule) ops).1 := by
  apply runOps_obsEq
  simp [installJSI, installJSIForTests, initHybrid, obsEq]

/-- Witness for C6 at the concrete installed state `sFresh`. -/
theorem teardown_ordered_and_idempotent_witness :
    sFresh.wasDeallocated = false ∧
    ((deallocateRegistry sFresh).1 =
        [TeardownEvent.markFlag, TeardownEvent.notifyDeallocator,
          TeardownEvent.destroyRuntime] ∧
      deallocateRegistry (deallocateRegistry sFresh).2 =
        ([], (deallocateRegistry sFresh).2)) :=
  ⟨by decide,
    (teardown_ordered_and_idempotent sFresh (by decide)).1,
    (teardown_ordered_and_idempotent sFresh (by decide)).2.2.2.2.1⟩

end Expo
